import Mathlib

set_option maxRecDepth 16384

/-!
Verification of the Asana / USAC form-processing agent.

This file gives a shallow embedding of the pure decision logic of the
repository's Python sources:

* `extract_form_info` (src/asana_form_agent.py) — field extraction from the
  decoded document text (the PDF-to-text decoding itself is the external
  `pdfplumber` library and is out of scope; the embedding takes the decoded
  text as input);
* `search_form470` (src/asana_form_agent.py) — registry matching against the
  USAC open-data endpoint, parametrised by the HTTP response;
* `download_pdf_from_task` (src/asana_form_agent.py) — document location,
  parametrised by the HTTP fetch outcome per URL;
* the per-task workflow drivers `process_single_task`
  (src/intelligent_qa_agent.py) and the loop body of `process_qa_tasks`
  (src/run_qa_agent.py), with Task Store mutations reified as an effect trace;
* the Task Store category predicates of `get_qa_tasks`,
  `move_task_to_processing`, `move_task_to_manual_followup` and
  `move_task_to_issues` (src/asana_form_agent.py).

Python dictionaries are modelled as association lists in insertion order;
`None`-or-string values as `Option String`; Python truthiness of such values
as `truthyOpt`.  The regular-expression searches of the source are modelled
character-for-character, including `re.IGNORECASE`, the leftmost-match rule of
`re.search`, and the greedy-backtracking behaviour of the concrete patterns
used (`[:\s]*` before `(\d+)` / `([^\n]+)`, `.*` confined to one line, and
`[^\s]+` before `\.pdf`).
-/

/-- Characters matched by Python's regex class `\s` and stripped by
`str.strip()` (ASCII range): space, tab, newline, carriage return, vertical
tab, form feed. -/
def isPySpace (c : Char) : Bool :=
  c == ' ' || c == '\t' || c == '\n' || c == '\r' || c == Char.ofNat 11 || c == Char.ofNat 12

/-- Does `pat` occur literally at the head of `cs`? -/
def listStarts : List Char → List Char → Bool
  | [], _ => true
  | _ :: _, [] => false
  | p :: ps, c :: cs => (p == c) && listStarts ps cs

/-- Case-insensitive variant of `listStarts`: matching a literal under
`re.IGNORECASE`. -/
def ciStarts : List Char → List Char → Bool
  | [], _ => true
  | _ :: _, [] => false
  | p :: ps, c :: cs => (p.toLower == c.toLower) && ciStarts ps cs

/-- Python's `needle in hay` substring test. -/
def containsSub (needle : List Char) : List Char → Bool
  | [] => listStarts needle []
  | c :: cs => listStarts needle (c :: cs) || containsSub needle cs

/-- Python's `str.endswith(suffix)`. -/
def endsWithL (suffix cs : List Char) : Bool := listStarts suffix.reverse cs.reverse

/-- `cs.map Char.toLower`: Python's `str.lower()` on ASCII text. -/
def lowerL (cs : List Char) : List Char := cs.map Char.toLower

/-- Python's `str.lower()` at the `String` level. -/
def strLower (s : String) : String := String.mk (lowerL s.data)

/-- Try an at-position matcher at every suffix of the text, leftmost first:
the search strategy of `re.search` / the first element of `re.findall`. -/
def searchSuffixes (f : List Char → Option α) : List Char → Option α
  | [] => f []
  | c :: cs =>
    match f (c :: cs) with
    | some r => some r
    | none => searchSuffixes f cs

/-- Descending scan over offsets `n, n-1, …, 0`: the order in which a greedy
quantifier hands back characters while backtracking. -/
def scanDown (f : Nat → Option α) : Nat → Option α
  | 0 => f 0
  | n + 1 =>
    match f (n + 1) with
    | some r => some r
    | none => scanDown f n

/-- Greedy consumption of the regex class `[:\s]`. -/
def takeColonSpace (cs : List Char) : List Char :=
  cs.takeWhile (fun c => c == ':' || isPySpace c)

/-- Skip the regex class `[:\s]*` greedily. -/
def dropColonSpace (cs : List Char) : List Char :=
  cs.dropWhile (fun c => c == ':' || isPySpace c)

/-- Greedy `(\d+)` capture. -/
def takeDigits (cs : List Char) : List Char := cs.takeWhile Char.isDigit

/-- At-position matcher for `LABEL[:\s]*(\d+)` under `re.IGNORECASE`: the
label must occur here, then colon/whitespace padding, then at least one digit;
the capture is the maximal digit run.  (Backtracking into the padding cannot
succeed because `[:\s]` and `\d` are disjoint.) -/
def labelDigitsAt (label : List Char) (cs : List Char) : Option (List Char) :=
  if ciStarts label cs then
    let ds := takeDigits (dropColonSpace (cs.drop label.length))
    if ds.isEmpty then none else some ds
  else none

/-- `re.search(LABEL + r'[:\s]*(\d+)', text, re.IGNORECASE)`, returning the
captured digit group. -/
def searchLabelDigits (label text : List Char) : Option (List Char) :=
  searchSuffixes (labelDigitsAt label) text

/-- Greedy backtracking of `[:\s]*` before `([^\n]+)` when the padding ran to
the end of the input: the match restarts at the last padding character that is
not a newline, and the capture runs from there to the next newline. -/
def backtrackLine : List Char → Option (List Char)
  | [] => none
  | c :: cs =>
    match backtrackLine cs with
    | some r => some r
    | none => if c != '\n' then some ((c :: cs).takeWhile (fun d => d != '\n')) else none

/-- At-position matcher for `LABEL[:\s]*([^\n]+)` under `re.IGNORECASE`:
after the label and the greedy colon/whitespace padding, capture the rest of
the line; when the padding reaches the end of the input the regex engine
backtracks into it. -/
def labelLineAt (label : List Char) (cs : List Char) : Option (List Char) :=
  if ciStarts label cs then
    let rest := cs.drop label.length
    let pad := takeColonSpace rest
    let rem := rest.drop pad.length
    if rem.isEmpty then backtrackLine pad
    else some (rem.takeWhile (fun d => d != '\n'))
  else none

/-- At-position matcher for `(\d{n})`: `n` consecutive digits starting here
(a window inside a longer digit run also matches). -/
def nDigitsAt (n : Nat) (cs : List Char) : Option (List Char) :=
  let w := cs.take n
  if w.length == n && w.all Char.isDigit then some w else none

/-- `re.search(r'(\d{n})', text)`. -/
def searchNDigits (n : Nat) (text : List Char) : Option (List Char) :=
  searchSuffixes (nDigitsAt n) text

/-- At-position matcher for `Establishing.*Form 470[:\s]*(\d+)` under
`re.IGNORECASE`: `.*` cannot cross a newline and is greedy, so the last
occurrence of "form 470" on the same line whose continuation yields at least
one digit wins. -/
def establishingLooseAt (cs : List Char) : Option (List Char) :=
  if ciStarts ("establishing".data) cs then
    let afterL := cs.drop 12
    let lineLen := (afterL.takeWhile (fun c => c != '\n')).length
    scanDown (fun e =>
      let s := afterL.drop e
      if ciStarts ("form 470".data) s then
        let ds := takeDigits (dropColonSpace (s.drop 8))
        if ds.isEmpty then none else some ds
      else none) lineLen
  else none

/-- Python `str.strip()` (whitespace on both ends). -/
def stripL (cs : List Char) : List Char :=
  ((cs.dropWhile isPySpace).reverse.dropWhile isPySpace).reverse

/-- The form-type classification step of `extract_form_info`
(src/asana_form_agent.py lines 299-308): `'form 471' in text.lower() or '471'
in text.lower()` gives `'471'`; else the same test for 470; else
`'unknown'`. -/
def classifyFormType (cs : List Char) : String :=
  let lt := lowerL cs
  if containsSub ("form 471".data) lt || containsSub ("471".data) lt then "471"
  else if containsSub ("form 470".data) lt || containsSub ("470".data) lt then "470"
  else "unknown"

/-- Primary application-number rule of `extract_form_info` (line 311):
`re.search(r'Application Number[:\s]*(\d+)', text, re.IGNORECASE)`. -/
def searchAppNumber (cs : List Char) : Option (List Char) :=
  searchLabelDigits ("Application Number".data) cs

/-- Fallback application-number rule (line 317): `re.search(r'(\d{9})',
text)`. -/
def searchNineDigits (cs : List Char) : Option (List Char) :=
  searchNDigits 9 cs

/-- Billed-entity rule (line 326): `re.search(r'Billed Entity
Name[:\s]*([^\n]+)', text, re.IGNORECASE)`. -/
def searchBilledEntity (cs : List Char) : Option (List Char) :=
  searchSuffixes (labelLineAt ("Billed Entity Name".data)) cs

/-- The three-tier establishing-Form-470 fallback of `extract_form_info`
(lines 338-355): exact label, then the looser `Establishing.*Form 470`
pattern, then any 15 consecutive digits. -/
def searchEstablishing (cs : List Char) : Option (List Char) :=
  match searchSuffixes (labelDigitsAt ("Establishing FCC Form 470".data)) cs with
  | some d => some d
  | none =>
    match searchSuffixes establishingLooseAt cs with
    | some d => some d
    | none => searchNDigits 15 cs

/-- Python truthiness of an optional string (`None` and `''` are falsy). -/
def truthyOpt : Option String → Bool
  | none => false
  | some s => s != ""

/-- Builds the `form_info` dictionary of `extract_form_info` (lines 325-369)
once an application number was found: billed entity (default "Unknown"),
then the establishing number (attempted only for form type 471), in the
source's insertion order. -/
def extractRest (cs : List Char) (formType : String) (appNumber : String) :
    List (String × String) :=
  let billed : String :=
    match searchBilledEntity cs with
    | some g => String.mk (stripL g)
    | none => "Unknown"
  let estab : Option String :=
    if formType = "471" then (searchEstablishing cs).map String.mk else none
  [("application_number", appNumber), ("form_type", formType),
   ("billed_entity_name", billed)] ++
    (if truthyOpt estab then [("establishing_form470_number", estab.getD "")] else [])

/-- `extract_form_info` from src/asana_form_agent.py (lines 282-373), on the
decoded document text; the returned Python dict is an association list in
insertion order, and the empty list is the `{}` returned when no application
number is found. -/
def extract_form_info (text : String) : List (String × String) :=
  let cs := text.data
  let formType := classifyFormType cs
  match searchAppNumber cs with
  | some n => extractRest cs formType (String.mk n)
  | none =>
    match searchNineDigits cs with
    | some n => extractRest cs formType (String.mk n)
    | none => []

/-- Python `dict.get(k)` on the association-list encoding. -/
def dget (d : List (String × String)) (k : String) : Option String :=
  (d.find? (fun p => p.1 == k)).map (fun p => p.2)

/-- Python `dict.get(k, default)`. -/
def dgetD (d : List (String × String)) (k d0 : String) : String :=
  (dget d k).getD d0

/-- The result dictionary of `search_form470`; a key the source omits from
the returned dict is `none` here. -/
structure MatchResult where
  found : Bool
  form470Url : Option String := none
  searchNumber : Option String := none
  error : Option String := none
  record : Option (List (String × String)) := none
deriving DecidableEq

/-- Python `a or b` on optional strings (first operand if truthy, otherwise
the second). -/
def pyOr (a b : Option String) : Option String := if truthyOpt a then a else b

/-- A registry record of the USAC response body, as a JSON object
(association list). -/
abbrev UsacRecord := List (String × String)

/-- Outcome of the `requests.get` call against the registry: either a raised
transport/parse exception with its message, or a response with an HTTP status
code and (for status 200) the decoded JSON array of records. -/
abbrev ApiOutcome := Except String (Nat × List UsacRecord)

/-- `search_form470` from src/asana_form_agent.py (lines 375-455), with the
registry call abstracted as a function from the search number to the
response.  The first component is the returned dict; the second component
instruments which search number was actually sent to the registry (`none`
when the function returned before querying). -/
def search_form470 (formInfo : List (String × String)) (api : String → ApiOutcome) :
    MatchResult × Option String :=
  let searchNumber : Option String :=
    if dget formInfo "form_type" = some "471" ∧
        truthyOpt (dget formInfo "establishing_form470_number") = true then
      dget formInfo "establishing_form470_number"
    else
      dget formInfo "application_number"
  if truthyOpt searchNumber = false then
    ({ found := false, error := some "No search number found" }, none)
  else
    let key := searchNumber.getD ""
    match api key with
    | .error msg =>
      ({ found := false,
         searchNumber := pyOr (dget formInfo "establishing_form470_number")
           (dget formInfo "application_number"),
         error := some msg }, some key)
    | .ok (status, data) =>
      if status = 200 then
        match data with
        | [] => ({ found := false, searchNumber := some key }, some key)
        | rec0 :: _ =>
          let url := dgetD rec0 "form_pdf" ""
          if url ≠ "" then
            ({ found := true, form470Url := some url, searchNumber := some key,
               record := some rec0 }, some key)
          else
            ({ found := false, searchNumber := some key,
               error := some "No URL in record" }, some key)
      else
        ({ found := false, searchNumber := some key,
           error := some ("API error: " ++ toString status) }, some key)

/-- An Asana attachment descriptor as fetched with the `attachments.name` /
`attachments.download_url` opt fields. -/
structure Attachment where
  name : String
  downloadUrl : Option String
deriving DecidableEq

/-- An Asana task with the fields the pipeline reads: gid, name, notes,
attachments in their existing order, and the names of the sections its
memberships point at. -/
structure AsanaTask where
  gid : String
  name : String
  notes : String
  attachments : List Attachment
  sectionNames : List String
deriving DecidableEq

/-- Outcome of `requests.get` on a document URL: a raised exception with its
message, or an HTTP status code (the body bytes are irrelevant to the control
flow). -/
abbrev FetchOutcome := Except String Nat

/-- The eligibility test of the attachment loop in `download_pdf_from_task`
(line 219): a non-empty name that ends in ".pdf" case-insensitively. -/
def attachmentEligible (a : Attachment) : Bool :=
  a.name != "" && endsWithL (".pdf".data) (lowerL a.name.data)

/-- One iteration of the attachment loop of `download_pdf_from_task`
(lines 215-242): skip non-PDF names and attachments without a download URL,
download otherwise; only a 200 status yields a file path
(`temp_dir/{task_id}_{attachment_name}`), any other status or a raised
exception yields nothing. -/
def tryAttachment (tempDir gid : String) (fetch : String → FetchOutcome)
    (a : Attachment) : Option String :=
  if attachmentEligible a then
    match a.downloadUrl with
    | some url =>
      match fetch url with
      | .ok s => if s = 200 then some (tempDir ++ "/" ++ gid ++ "_" ++ a.name) else none
      | .error _ => none
    | none => none
  else none

/-- The attachment loop of `download_pdf_from_task`: first attachment whose
attempt succeeds wins; a failed attempt continues with the remaining
attachments. -/
def downloadLoop (tempDir gid : String) (fetch : String → FetchOutcome) :
    List Attachment → Option String
  | [] => none
  | a :: rest =>
    match tryAttachment tempDir gid fetch a with
    | some p => some p
    | none => downloadLoop tempDir gid fetch rest

/-- At-position matcher for `http[s]?://[^\s]+\.pdf` under `re.IGNORECASE`:
the greedy `[^\s]+` backtracks, so the match extends to the last ".pdf"
inside the non-whitespace run after the scheme.  Returns the matched URL in
its original case. -/
def pdfUrlAt (cs : List Char) : Option (List Char) :=
  let k : Option Nat :=
    if ciStarts ("https://".data) cs then some 8
    else if ciStarts ("http://".data) cs then some 7
    else none
  match k with
  | none => none
  | some k =>
    let run := (cs.drop k).takeWhile (fun c => !isPySpace c)
    match scanDown (fun j =>
        if 1 ≤ j ∧ ciStarts (".pdf".data) (run.drop j) = true then some (j + 4)
        else none) run.length with
    | none => none
    | some len => some (cs.take (k + len))

/-- `re.findall(r'http[s]?://[^\s]+\.pdf', notes, re.IGNORECASE)` followed by
taking the first element (lines 248-251). -/
def findFirstPdfUrl (cs : List Char) : Option (List Char) :=
  searchSuffixes pdfUrlAt cs

/-- Python `url.split('/')[-1]` (line 260). -/
def lastSegment (cs : List Char) : List Char :=
  cs.foldl (fun acc c => if c == '/' then [] else acc ++ [c]) []

/-- `download_pdf_from_task` from src/asana_form_agent.py (lines 195-280),
with the per-URL HTTP outcome abstracted as `fetch`: try the attachments in
order, then fall back to the first ".pdf" URL in the notes; a failed
notes-URL download returns `none` directly, and `none` is also the result
when no source exists at all. -/
def download_pdf_from_task (tempDir : String) (task : AsanaTask)
    (fetch : String → FetchOutcome) : Option String :=
  match downloadLoop tempDir task.gid fetch task.attachments with
  | some p => some p
  | none =>
    if task.notes ≠ "" then
      match findFirstPdfUrl task.notes.data with
      | some url =>
        match fetch (String.mk url) with
        | .ok s =>
          if s = 200 then
            some (tempDir ++ "/" ++ task.gid ++ "_" ++ String.mk (lastSegment url))
          else none
        | .error _ => none
      | none => none
    else none

/-- A Task Store mutation requested by the pipeline, in request order:
the three category moves (with their audit reason), task completion with the
matched Form 470 URL, and child-record creation with the name and notes the
source builds. -/
inductive Effect where
  | moveToProcessing
  | markComplete (form470Url : Option String)
  | moveToManualFollowup (reason : String)
  | createSubtask (name : String) (notes : String)
  | moveToIssues (reason : String)
deriving DecidableEq

/-- The name of the sub-task built by `create_manual_review_subtask`
(src/asana_form_agent.py line 503). -/
def subtaskName (formInfo : List (String × String)) : String :=
  "Manual Review: Find Form 470 for " ++ dgetD formInfo "application_number" "Unknown"

/-- The notes of the sub-task built by `create_manual_review_subtask`
(src/asana_form_agent.py lines 504-516), reproducing the f-string template. -/
def subtaskNotes (formInfo : List (String × String)) : String :=
  "This sub-task was created automatically because no Form 470 was found for Form 471.\n\nForm 471 Application Number: "
    ++ dgetD formInfo "application_number" "Unknown"
    ++ "\nForm Type: " ++ dgetD formInfo "form_type" "Unknown"
    ++ "\nBilled Entity: " ++ dgetD formInfo "billed_entity_name" "Unknown"
    ++ "\n\nPlease manually search for the corresponding Form 470 and update this sub-task with the results.\n\nExpected actions:\n1. Search USAC database for Form 470\n2. Verify the Form 470 matches the Form 471\n3. Update this sub-task with findings\n4. Mark parent task as complete if Form 470 is found"

/-- `process_single_task` from src/intelligent_qa_agent.py (lines 50-94):
move to Processing, locate the document, extract, and branch on
`form_info and form_info.get('form_type') == '471'` and on the match result;
returns the status string of the source together with the trace of requested
Task Store mutations.  `textOf` is the external PDF-to-text decoding of the
downloaded file. -/
def process_single_task (tempDir : String) (task : AsanaTask)
    (fetch : String → FetchOutcome) (textOf : String → String)
    (api : String → ApiOutcome) : String × List Effect :=
  match download_pdf_from_task tempDir task fetch with
  | some pdfPath =>
    let formInfo := extract_form_info (textOf pdfPath)
    if formInfo ≠ [] ∧ dget formInfo "form_type" = some "471" then
      let searchResult := (search_form470 formInfo api).1
      if searchResult.found then
        ("COMPLETED", [.moveToProcessing, .markComplete searchResult.form470Url])
      else
        ("MANUAL_FOLLOWUP",
         [.moveToProcessing,
          .moveToManualFollowup "Form 470 not found in USAC database",
          .createSubtask (subtaskName formInfo) (subtaskNotes formInfo)])
    else
      ("ISSUES", [.moveToProcessing, .moveToIssues "Not a Form 471 or extraction failed"])
  | none =>
    ("ISSUES", [.moveToProcessing, .moveToIssues "No PDF found or download failed"])

/-- The per-task body of `process_qa_tasks` from src/run_qa_agent.py
(lines 62-108): unlike `process_single_task` it branches only on
`if form_info:` (dict non-emptiness), so a non-471 record still proceeds to
the registry search; a failed extraction goes to Issues with the reason
"Failed to extract form information from PDF". -/
def processQaTaskStep (tempDir : String) (task : AsanaTask)
    (fetch : String → FetchOutcome) (textOf : String → String)
    (api : String → ApiOutcome) : List Effect :=
  match download_pdf_from_task tempDir task fetch with
  | some pdfPath =>
    let formInfo := extract_form_info (textOf pdfPath)
    if formInfo ≠ [] then
      let searchResult := (search_form470 formInfo api).1
      if searchResult.found then
        [.moveToProcessing, .markComplete searchResult.form470Url]
      else
        [.moveToProcessing,
         .moveToManualFollowup "Form 470 not found in USAC database",
         .createSubtask (subtaskName formInfo) (subtaskNotes formInfo)]
    else
      [.moveToProcessing, .moveToIssues "Failed to extract form information from PDF"]
  | none =>
    [.moveToProcessing, .moveToIssues "No PDF found or download failed"]

/-- The backlog filter of `get_qa_tasks` (src/asana_form_agent.py line 60):
a membership's section name, lowercased, must be exactly `"qa"`. -/
def sectionIsQa (name : String) : Bool := strLower name == "qa"

/-- `get_qa_tasks` from src/asana_form_agent.py (lines 40-70), on the task
list the project query returns: keep the tasks one of whose membership
sections passes `sectionIsQa`. -/
def get_qa_tasks (tasks : List AsanaTask) : List AsanaTask :=
  tasks.filter (fun t => t.sectionNames.any sectionIsQa)

/-- Section predicate of `move_task_to_processing` (line 87): lowercased name
contains both "qa" and "processing". -/
def processingSectionPred (name : String) : Bool :=
  containsSub ("qa".data) (lowerL name.data) &&
    containsSub ("processing".data) (lowerL name.data)

/-- Section predicate of `move_task_to_manual_followup` (line 128): lowercased
name contains both "qa" and "manual follow-up". -/
def manualSectionPred (name : String) : Bool :=
  containsSub ("qa".data) (lowerL name.data) &&
    containsSub ("manual follow-up".data) (lowerL name.data)

/-- Section predicate of `move_task_to_issues` (line 169): lowercased name
contains both "qa" and "issues". -/
def issuesSectionPred (name : String) : Bool :=
  containsSub ("qa".data) (lowerL name.data) &&
    containsSub ("issues".data) (lowerL name.data)

/-- The section lookup loop of `move_task_to_processing` (lines 86-89): the
first section of the project satisfying the predicate. -/
def findProcessingSection (sections : List String) : Option String :=
  sections.find? processingSectionPred

/-- The section lookup loop of `move_task_to_manual_followup`
(lines 127-130). -/
def findManualSection (sections : List String) : Option String :=
  sections.find? manualSectionPred

/-- The section lookup loop of `move_task_to_issues` (lines 168-171). -/
def findIssuesSection (sections : List String) : Option String :=
  sections.find? issuesSectionPred

/-! ### Generic lemmas about the search primitives -/

/-- `truthyOpt` holds exactly on non-empty strings. -/
theorem truthyOpt_eq_true_iff (o : Option String) :
    truthyOpt o = true ↔ ∃ s, o = some s ∧ s ≠ "" := by
  cases o with
  | none => simp [truthyOpt]
  | some s => simp [truthyOpt]

/-- `searchSuffixes` returns the result of the at-position matcher at the
leftmost position where it succeeds. -/
theorem searchSuffixes_eq_some_iff {α : Type} (f : List Char → Option α)
    (cs : List Char) (r : α) :
    searchSuffixes f cs = some r ↔
      ∃ i, i ≤ cs.length ∧ f (cs.drop i) = some r ∧ ∀ j, j < i → f (cs.drop j) = none := by
  induction cs with
  | nil =>
    simp only [searchSuffixes, List.length_nil, List.drop_nil]
    constructor
    · intro h
      exact ⟨0, Nat.le_refl 0, h, fun j hj => absurd hj (Nat.not_lt_zero j)⟩
    · rintro ⟨i, -, hf, -⟩
      exact hf
  | cons c cs ih =>
    simp only [searchSuffixes]
    cases h : f (c :: cs) with
    | some r' =>
      simp only []
      constructor
      · intro hr
        exact ⟨0, Nat.zero_le _, by simpa [hr] using h, fun j hj => absurd hj (Nat.not_lt_zero j)⟩
      · rintro ⟨i, hi, hf, hall⟩
        cases i with
        | zero => simpa [h] using hf
        | succ k =>
          have := hall 0 (Nat.succ_pos k)
          simp only [List.drop_zero] at this
          rw [this] at h
          exact absurd h (by simp)
    | none =>
      simp only []
      rw [ih]
      constructor
      · rintro ⟨i, hi, hf, hall⟩
        refine ⟨i + 1, by simpa [List.length_cons] using Nat.succ_le_succ hi, ?_, ?_⟩
        · simpa [List.drop_succ_cons] using hf
        · intro j hj
          cases j with
          | zero => simpa using h
          | succ k =>
            have hk : k < i := Nat.lt_of_succ_lt_succ hj
            simpa [List.drop_succ_cons] using hall k hk
      · rintro ⟨i, hi, hf, hall⟩
        cases i with
        | zero =>
          simp only [List.drop_zero] at hf
          rw [hf] at h
          exact absurd h (by simp)
        | succ k =>
          refine ⟨k, Nat.le_of_succ_le_succ (by simpa [List.length_cons] using hi), ?_, ?_⟩
          · simpa [List.drop_succ_cons] using hf
          · intro j hj
            simpa [List.drop_succ_cons] using hall (j + 1) (Nat.succ_lt_succ hj)

/-- Everything `takeWhile` keeps satisfies the predicate. -/
theorem all_takeWhile {α : Type} (p : α → Bool) (l : List α) :
    (l.takeWhile p).all p = true := by
  induction l with
  | nil => rfl
  | cons a l ih =>
    by_cases h : p a = true
    · simp [List.takeWhile_cons, h, ih]
    · simp [List.takeWhile_cons, Bool.eq_false_iff.mpr h]

/-- A list is a literal head of itself followed by anything. -/
theorem listStarts_self_append (n r : List Char) : listStarts n (n ++ r) = true := by
  induction n with
  | nil => rfl
  | cons c cs ih => simpa [listStarts] using ih

/-- `containsSub` from a head match. -/
theorem containsSub_of_starts (n h : List Char) (hs : listStarts n h = true) :
    containsSub n h = true := by
  cases h with
  | nil => simpa [containsSub] using hs
  | cons c cs => simp [containsSub, hs]

/-- `containsSub` is preserved by extending the text on the left. -/
theorem containsSub_cons (n : List Char) (c : Char) (h : List Char)
    (hc : containsSub n h = true) : containsSub n (c :: h) = true := by
  simp [containsSub, hc]

/-- An explicit infix occurrence makes `containsSub` true. -/
theorem containsSub_append (l n r : List Char) :
    containsSub n (l ++ n ++ r) = true := by
  induction l with
  | nil => simpa using containsSub_of_starts n (n ++ r) (listStarts_self_append n r)
  | cons c cs ih => simpa [List.cons_append] using containsSub_cons n c _ ih

/-! ### Generic lemmas about dictionaries -/

/-- Lookup of the key at the head of the association list. -/
theorem dget_cons_self (k v : String) (rest : List (String × String)) :
    dget ((k, v) :: rest) k = some v := by
  simp [dget, List.find?_cons_of_pos]

/-- Lookup skips a head entry with a different key. -/
theorem dget_cons_miss (k k' v : String) (rest : List (String × String))
    (h : (k == k') = false) : dget ((k, v) :: rest) k' = dget rest k' := by
  simp [dget, List.find?_cons_of_neg, h]

/-! ### Lemmas about the document locator -/

/-- The attachment loop is the first successful attempt in attachment
order. -/
theorem downloadLoop_eq_findSome (tempDir gid : String) (fetch : String → FetchOutcome)
    (atts : List Attachment) :
    downloadLoop tempDir gid fetch atts = atts.findSome? (tryAttachment tempDir gid fetch) := by
  induction atts with
  | nil => rfl
  | cons a rest ih =>
    simp only [downloadLoop, List.findSome?_cons]
    cases tryAttachment tempDir gid fetch a with
    | some p => rfl
    | none => exact ih

/-- A single attachment attempt succeeds exactly when the attachment is an
eligible PDF with a download URL whose fetch returns status 200. -/
theorem tryAttachment_isSome_iff (tempDir gid : String) (fetch : String → FetchOutcome)
    (a : Attachment) :
    (tryAttachment tempDir gid fetch a).isSome = true ↔
      attachmentEligible a = true ∧ ∃ u, a.downloadUrl = some u ∧ fetch u = .ok 200 := by
  unfold tryAttachment
  by_cases he : attachmentEligible a = true
  · rw [if_pos he]
    cases hu : a.downloadUrl with
    | none => simp [he]
    | some u =>
      cases hf : fetch u with
      | error e => simp [he, hf]
      | ok s =>
        by_cases hs : s = 200
        · subst hs; simp [he, hf]
        · simp only [hf, if_neg hs, Option.isSome_none]
          constructor
          · intro h; exact absurd h (by simp)
          · rintro ⟨-, u', hu', hf'⟩
            rw [Option.some.injEq] at hu'
            subst hu'
            rw [hf] at hf'
            exact absurd (by simpa using hf') hs
  · simp [if_neg he, he]

/-- The attachment loop succeeds exactly when some attachment attempt
succeeds. -/
theorem downloadLoop_isSome_iff (tempDir gid : String) (fetch : String → FetchOutcome)
    (atts : List Attachment) :
    (downloadLoop tempDir gid fetch atts).isSome = true ↔
      ∃ a ∈ atts, attachmentEligible a = true ∧ ∃ u, a.downloadUrl = some u ∧ fetch u = .ok 200 := by
  induction atts with
  | nil => simp [downloadLoop]
  | cons a rest ih =>
    simp only [downloadLoop]
    cases h : tryAttachment tempDir gid fetch a with
    | some p =>
      simp only [Option.isSome_some, true_iff]
      have := (tryAttachment_isSome_iff tempDir gid fetch a).mp (by simp [h])
      exact ⟨a, List.mem_cons_self a rest, this⟩
    | none =>
      rw [ih]
      constructor
      · rintro ⟨b, hb, hrest⟩
        exact ⟨b, List.mem_cons_of_mem a hb, hrest⟩
      · rintro ⟨b, hb, hrest⟩
        rcases List.mem_cons.mp hb with hba | hbr
        · subst hba
          have : (tryAttachment tempDir gid fetch b).isSome = true :=
            (tryAttachment_isSome_iff tempDir gid fetch b).mpr hrest
          rw [h] at this
          exact absurd this (by simp)
        · exact ⟨b, hbr, hrest⟩

/-- The locator yields a path exactly when some attachment source succeeds or,
failing that, the first ".pdf" URL of the notes downloads with status 200. -/
theorem download_pdf_isSome_iff (tempDir : String) (task : AsanaTask)
    (fetch : String → FetchOutcome) :
    (download_pdf_from_task tempDir task fetch).isSome = true ↔
      (∃ a ∈ task.attachments, attachmentEligible a = true ∧
        ∃ u, a.downloadUrl = some u ∧ fetch u = .ok 200) ∨
      (task.notes ≠ "" ∧ ∃ url, findFirstPdfUrl task.notes.data = some url ∧
        fetch (String.mk url) = .ok 200) := by
  unfold download_pdf_from_task
  cases hl : downloadLoop tempDir task.gid fetch task.attachments with
  | some p =>
    simp only [Option.isSome_some, true_iff]
    exact Or.inl ((downloadLoop_isSome_iff tempDir task.gid fetch task.attachments).mp (by simp [hl]))
  | none =>
    have hatt : ¬ ∃ a ∈ task.attachments, attachmentEligible a = true ∧
        ∃ u, a.downloadUrl = some u ∧ fetch u = .ok 200 := by
      intro hc
      have := (downloadLoop_isSome_iff tempDir task.gid fetch task.attachments).mpr hc
      rw [hl] at this
      exact absurd this (by simp)
    by_cases hn : task.notes = ""
    · simp [hn, hatt]
    · rw [if_pos hn]
      cases hurl : findFirstPdfUrl task.notes.data with
      | none => simp [hatt, hn, hurl]
      | some url =>
        simp only [hatt, hn, hurl, false_or, ne_eq, not_false_iff, true_and,
          Option.some.injEq]
        constructor
        · intro h
          cases hf : fetch (String.mk url) with
          | error e =>
            rw [hf] at h
            simp at h
          | ok s =>
            rw [hf] at h
            by_cases hs : s = 200
            · subst hs
              exact ⟨url, rfl, hf⟩
            · simp only [if_neg hs] at h
              simp at h
        · rintro ⟨url', rfl, hf'⟩
          rw [hf']
          rfl

/-! ### Lemmas about the extracted record -/

/-- The application-number entry of a non-empty extracted record. -/
theorem dget_extractRest_app (cs : List Char) (ft n : String) :
    dget (extractRest cs ft n) "application_number" = some n := by
  unfold extractRest
  simp only [List.cons_append]
  exact dget_cons_self _ _ _

/-- The form-type entry of a non-empty extracted record. -/
theorem dget_extractRest_type (cs : List Char) (ft n : String) :
    dget (extractRest cs ft n) "form_type" = some ft := by
  unfold extractRest
  simp only [List.cons_append]
  rw [dget_cons_miss _ _ _ _ (by decide)]
  exact dget_cons_self _ _ _

/-- The billed-entity entry of a non-empty extracted record: the stripped
capture of the label rule, defaulting to "Unknown". -/
theorem dget_extractRest_billed (cs : List Char) (ft n : String) :
    dget (extractRest cs ft n) "billed_entity_name" =
      some (match searchBilledEntity cs with
            | some g => String.mk (stripL g)
            | none => "Unknown") := by
  unfold extractRest
  simp only [List.cons_append]
  rw [dget_cons_miss _ _ _ _ (by decide), dget_cons_miss _ _ _ _ (by decide)]
  exact dget_cons_self _ _ _

/-- A non-empty extracted record is `extractRest` applied to the classified
form type and the application number found by the primary or fallback
rule. -/
theorem extract_form_info_eq (text : String) :
    extract_form_info text =
      match searchAppNumber text.data with
      | some n => extractRest text.data (classifyFormType text.data) (String.mk n)
      | none =>
        match searchNineDigits text.data with
        | some n => extractRest text.data (classifyFormType text.data) (String.mk n)
        | none => [] := rfl

/-- `extractRest` never produces the empty dictionary. -/
theorem extractRest_ne_nil (cs : List Char) (ft n : String) :
    extractRest cs ft n ≠ [] := by
  unfold extractRest
  simp

/-! ### Lemmas about the registry matcher -/

/-- Once the selected search number is a non-empty string, `search_form470`
issues the query and classifies its outcome. -/
theorem search_form470_eq_of_key (fi : List (String × String)) (api : String → ApiOutcome)
    (s : String)
    (hsel : (if dget fi "form_type" = some "471" ∧
          truthyOpt (dget fi "establishing_form470_number") = true then
        dget fi "establishing_form470_number"
      else dget fi "application_number") = some s)
    (hne : s ≠ "") :
    search_form470 fi api =
      (match api s with
       | .error msg =>
         ({ found := false,
            searchNumber := pyOr (dget fi "establishing_form470_number")
              (dget fi "application_number"),
            error := some msg }, some s)
       | .ok (status, data) =>
         if status = 200 then
           match data with
           | [] => ({ found := false, searchNumber := some s }, some s)
           | rec0 :: _ =>
             if dgetD rec0 "form_pdf" "" ≠ "" then
               ({ found := true, form470Url := some (dgetD rec0 "form_pdf" ""),
                  searchNumber := some s, record := some rec0 }, some s)
             else
               ({ found := false, searchNumber := some s,
                  error := some "No URL in record" }, some s)
         else
           ({ found := false, searchNumber := some s,
              error := some ("API error: " ++ toString status) }, some s)) := by
  simp only [search_form470]
  rw [hsel]
  rw [show truthyOpt (some s) = true from by simp [truthyOpt, hne]]
  rw [if_neg (by simp : ¬((true : Bool) = false))]
  rw [Option.getD_some]

/-- Whenever the selected search number is non-empty, the instrumented query
key of `search_form470` is that number, whatever the registry answers. -/
theorem search_snd_of_key (fi : List (String × String)) (api : String → ApiOutcome)
    (s : String)
    (hsel : (if dget fi "form_type" = some "471" ∧
          truthyOpt (dget fi "establishing_form470_number") = true then
        dget fi "establishing_form470_number"
      else dget fi "application_number") = some s)
    (hne : s ≠ "") :
    (search_form470 fi api).2 = some s := by
  rw [search_form470_eq_of_key fi api s hsel hne]
  rcases hap : api s with msg | ⟨st, data⟩
  · rfl
  · dsimp only
    by_cases hst : st = 200
    · rw [if_pos hst]
      cases data with
      | nil => rfl
      | cons r rest =>
        dsimp only
        by_cases hu : dgetD r "form_pdf" "" ≠ ""
        · rw [if_pos hu]
        · rw [if_neg hu]
    · rw [if_neg hst]

/-- When the selected search number is not truthy, `search_form470` fails
before querying. -/
theorem search_form470_no_key (fi : List (String × String)) (api : String → ApiOutcome)
    (hf : truthyOpt (if dget fi "form_type" = some "471" ∧
          truthyOpt (dget fi "establishing_form470_number") = true then
        dget fi "establishing_form470_number"
      else dget fi "application_number") = false) :
    search_form470 fi api =
      ({ found := false, error := some "No search number found" }, none) := by
  simp only [search_form470]
  rw [if_pos hf]

/-- Inversion: an instrumented query key comes from a truthy selected search
number. -/
theorem search_snd_some_inv (fi : List (String × String)) (api : String → ApiOutcome)
    (key : String) (hq : (search_form470 fi api).2 = some key) :
    (if dget fi "form_type" = some "471" ∧
          truthyOpt (dget fi "establishing_form470_number") = true then
        dget fi "establishing_form470_number"
      else dget fi "application_number") = some key ∧ key ≠ "" := by
  by_cases ht : truthyOpt (if dget fi "form_type" = some "471" ∧
      truthyOpt (dget fi "establishing_form470_number") = true then
    dget fi "establishing_form470_number"
  else dget fi "application_number") = true
  · obtain ⟨s, hs, hne⟩ := (truthyOpt_eq_true_iff _).mp ht
    have hsnd := search_snd_of_key fi api s hs hne
    rw [hsnd] at hq
    injection hq with h
    subst h
    exact ⟨hs, hne⟩
  · have hfalse := Bool.eq_false_iff.mpr ht
    rw [search_form470_no_key fi api hfalse] at hq
    exact absurd hq (by simp)

/-! ### Claim C1 -/

/-- C1: for every form record, the registry matcher's search key is the
establishing Form 470 number whenever the form type is "471" and that field
is truthy; otherwise it is the application number; and when neither field is
truthy the match fails with found=false and an error set, without issuing a
registry query (the instrumented query key is `none`). -/
theorem C1_matcher_search_key (fi : List (String × String)) (api : String → ApiOutcome) :
    ((dget fi "form_type" = some "471" ∧
        truthyOpt (dget fi "establishing_form470_number") = true) →
      (search_form470 fi api).2 = dget fi "establishing_form470_number")
    ∧ (¬(dget fi "form_type" = some "471" ∧
          truthyOpt (dget fi "establishing_form470_number") = true) →
       truthyOpt (dget fi "application_number") = true →
      (search_form470 fi api).2 = dget fi "application_number")
    ∧ (truthyOpt (dget fi "establishing_form470_number") = false →
       truthyOpt (dget fi "application_number") = false →
      (search_form470 fi api).1.found = false ∧
        ((search_form470 fi api).1.error).isSome = true ∧
        (search_form470 fi api).2 = none) := by
  refine ⟨?_, ?_, ?_⟩
  · intro hc
    obtain ⟨s, hs, hne⟩ := (truthyOpt_eq_true_iff _).mp hc.2
    have hsel : (if dget fi "form_type" = some "471" ∧
          truthyOpt (dget fi "establishing_form470_number") = true then
        dget fi "establishing_form470_number"
      else dget fi "application_number") = some s := by
      rw [if_pos hc]; exact hs
    rw [search_snd_of_key fi api s hsel hne, hs]
  · intro hnc happ
    obtain ⟨s, hs, hne⟩ := (truthyOpt_eq_true_iff _).mp happ
    have hsel : (if dget fi "form_type" = some "471" ∧
          truthyOpt (dget fi "establishing_form470_number") = true then
        dget fi "establishing_form470_number"
      else dget fi "application_number") = some s := by
      rw [if_neg hnc]; exact hs
    rw [search_snd_of_key fi api s hsel hne, hs]
  · intro he ha
    have hnc : ¬(dget fi "form_type" = some "471" ∧
        truthyOpt (dget fi "establishing_form470_number") = true) := by
      rintro ⟨-, h2⟩
      rw [he] at h2
      exact Bool.noConfusion h2
    have hfalse : truthyOpt (if dget fi "form_type" = some "471" ∧
          truthyOpt (dget fi "establishing_form470_number") = true then
        dget fi "establishing_form470_number"
      else dget fi "application_number") = false := by
      rw [if_neg hnc]; exact ha
    rw [search_form470_no_key fi api hfalse]
    exact ⟨rfl, rfl, rfl⟩

/-- C1 witness: a Form 471 record extracted from concrete text carrying an
establishing number queries by that number ("123456789012345", not the
application number); a 470 record queries by application number; a record
with neither field fails with found=false and an error, without querying. -/
theorem C1_matcher_search_key_witness :
    ((search_form470 (extract_form_info "FCC Form 471\nApplication Number: 251043327\nEstablishing FCC Form 470: 123456789012345")
        (fun _ => .ok (200, []))).2 =
      dget (extract_form_info "FCC Form 471\nApplication Number: 251043327\nEstablishing FCC Form 470: 123456789012345")
        "establishing_form470_number"
      ∧ dget (extract_form_info "FCC Form 471\nApplication Number: 251043327\nEstablishing FCC Form 470: 123456789012345")
          "establishing_form470_number" = some "123456789012345")
    ∧ (search_form470 [("application_number", "251043327"), ("form_type", "470"),
          ("billed_entity_name", "Unknown")] (fun _ => .ok (200, []))).2 =
        dget [("application_number", "251043327"), ("form_type", "470"),
          ("billed_entity_name", "Unknown")] "application_number"
    ∧ ((search_form470 [("form_type", "471")] (fun _ => .ok (200, []))).1.found = false
        ∧ ((search_form470 [("form_type", "471")] (fun _ => .ok (200, []))).1.error).isSome = true
        ∧ (search_form470 [("form_type", "471")] (fun _ => .ok (200, []))).2 = none) :=
  ⟨⟨(C1_matcher_search_key
        (extract_form_info "FCC Form 471\nApplication Number: 251043327\nEstablishing FCC Form 470: 123456789012345")
        (fun _ => .ok (200, []))).1 (by decide), by decide⟩,
    (C1_matcher_search_key [("application_number", "251043327"), ("form_type", "470"),
        ("billed_entity_name", "Unknown")] (fun _ => .ok (200, []))).2.1
      (by decide) (by decide),
    (C1_matcher_search_key [("form_type", "471")] (fun _ => .ok (200, []))).2.2
      (by decide) (by decide)⟩

/-! ### Claim C4 -/

/-- C4: for every registry query actually issued (the instrumented key is
`some key`): a 200 response with zero records yields found=false and no
error; a 200 response with records inspects the first record's "form_pdf"
field — non-empty gives found=true with that URL, empty gives found=false
with error "No URL in record"; a non-200 response yields found=false with an
"API error" message and the search key populated; a raised transport error
yields found=false with the exception message and a truthy search key. -/
theorem C4_registry_response (fi : List (String × String)) (api : String → ApiOutcome)
    (key : String) (hq : (search_form470 fi api).2 = some key) :
    (api key = .ok (200, []) →
      (search_form470 fi api).1.found = false ∧
        (search_form470 fi api).1.error = none ∧
        (search_form470 fi api).1.searchNumber = some key)
    ∧ (∀ rec0 rest, api key = .ok (200, rec0 :: rest) →
        (dgetD rec0 "form_pdf" "" ≠ "" →
          (search_form470 fi api).1.found = true ∧
            (search_form470 fi api).1.form470Url = some (dgetD rec0 "form_pdf" ""))
        ∧ (dgetD rec0 "form_pdf" "" = "" →
          (search_form470 fi api).1.found = false ∧
            (search_form470 fi api).1.error = some "No URL in record"))
    ∧ (∀ status data, api key = .ok (status, data) → status ≠ 200 →
        (search_form470 fi api).1.found = false ∧
          (search_form470 fi api).1.error = some ("API error: " ++ toString status) ∧
          (search_form470 fi api).1.searchNumber = some key)
    ∧ (∀ msg, api key = .error msg →
        (search_form470 fi api).1.found = false ∧
          (search_form470 fi api).1.error = some msg ∧
          truthyOpt ((search_form470 fi api).1.searchNumber) = true) := by
  obtain ⟨hsel, hne⟩ := search_snd_some_inv fi api key hq
  have heq := search_form470_eq_of_key fi api key hsel hne
  refine ⟨?_, ?_, ?_, ?_⟩
  · intro hap
    rw [heq, hap]
    exact ⟨rfl, rfl, rfl⟩
  · intro rec0 rest hap
    rw [heq, hap]
    dsimp only
    rw [if_pos rfl]
    constructor
    · intro hu
      rw [if_pos hu]
      exact ⟨rfl, rfl⟩
    · intro hu
      rw [if_neg (by simp [hu])]
      exact ⟨rfl, rfl⟩
  · intro status data hap hst
    rw [heq, hap]
    dsimp only
    rw [if_neg hst]
    exact ⟨rfl, rfl, rfl⟩
  · intro msg hap
    rw [heq, hap]
    refine ⟨rfl, rfl, ?_⟩
    dsimp only
    by_cases hte : truthyOpt (dget fi "establishing_form470_number") = true
    · unfold pyOr
      rw [if_pos hte]
      exact hte
    · have hnc : ¬(dget fi "form_type" = some "471" ∧
          truthyOpt (dget fi "establishing_form470_number") = true) :=
        fun hc => hte hc.2
      rw [if_neg hnc] at hsel
      unfold pyOr
      rw [if_neg hte, hsel]
      simp [truthyOpt, hne]

/-- C4 witness: the four response shapes at concrete inputs — empty 200
response, 200 response with a URL-bearing record and with a URL-less record,
a 500 response, and a raised exception. -/
theorem C4_registry_response_witness :
    ((search_form470 [("application_number", "251043327"), ("form_type", "470"),
        ("billed_entity_name", "Unknown")] (fun _ => .ok (200, []))).1.found = false
      ∧ (search_form470 [("application_number", "251043327"), ("form_type", "470"),
          ("billed_entity_name", "Unknown")] (fun _ => .ok (200, []))).1.error = none
      ∧ (search_form470 [("application_number", "251043327"), ("form_type", "470"),
          ("billed_entity_name", "Unknown")] (fun _ => .ok (200, []))).1.searchNumber = some "251043327")
    ∧ ((search_form470 [("application_number", "251043327")]
          (fun _ => .ok (200, [[("form_pdf", "http://x/y.pdf")]]))).1.found = true
        ∧ (search_form470 [("application_number", "251043327")]
            (fun _ => .ok (200, [[("form_pdf", "http://x/y.pdf")]]))).1.form470Url =
          some (dgetD [("form_pdf", "http://x/y.pdf")] "form_pdf" ""))
    ∧ ((search_form470 [("application_number", "251043327")]
          (fun _ => .ok (200, [[("app", "1")]]))).1.found = false
        ∧ (search_form470 [("application_number", "251043327")]
            (fun _ => .ok (200, [[("app", "1")]]))).1.error = some "No URL in record")
    ∧ ((search_form470 [("application_number", "251043327")] (fun _ => .ok (500, []))).1.found = false
        ∧ (search_form470 [("application_number", "251043327")] (fun _ => .ok (500, []))).1.error =
            some ("API error: " ++ toString 500)
        ∧ (search_form470 [("application_number", "251043327")] (fun _ => .ok (500, []))).1.searchNumber =
            some "251043327")
    ∧ ((search_form470 [("application_number", "251043327")] (fun _ => .error "timeout")).1.found = false
        ∧ (search_form470 [("application_number", "251043327")] (fun _ => .error "timeout")).1.error =
            some "timeout"
        ∧ truthyOpt ((search_form470 [("application_number", "251043327")]
            (fun _ => .error "timeout")).1.searchNumber) = true) :=
  ⟨(C4_registry_response [("application_number", "251043327"), ("form_type", "470"),
      ("billed_entity_name", "Unknown")] (fun _ => .ok (200, [])) "251043327" (by decide)).1 rfl,
    ((C4_registry_response [("application_number", "251043327")]
        (fun _ => .ok (200, [[("form_pdf", "http://x/y.pdf")]])) "251043327" (by decide)).2.1
      [("form_pdf", "http://x/y.pdf")] [] rfl).1 (by decide),
    ((C4_registry_response [("application_number", "251043327")]
        (fun _ => .ok (200, [[("app", "1")]])) "251043327" (by decide)).2.1
      [("app", "1")] [] rfl).2 (by decide),
    (C4_registry_response [("application_number", "251043327")]
        (fun _ => .ok (500, [])) "251043327" (by decide)).2.2.1 500 [] rfl (by decide),
    (C4_registry_response [("application_number", "251043327")]
        (fun _ => .error "timeout") "251043327" (by decide)).2.2.2 "timeout" rfl⟩

/-- Every extraction result is either the empty record or `extractRest` at
the classified form type and some application number. -/
theorem extract_form_info_cases (text : String) :
    extract_form_info text = [] ∨
      ∃ n, extract_form_info text =
        extractRest text.data (classifyFormType text.data) n := by
  rw [extract_form_info_eq]
  cases searchAppNumber text.data with
  | some n => exact Or.inr ⟨String.mk n, rfl⟩
  | none =>
    cases searchNineDigits text.data with
    | some n => exact Or.inr ⟨String.mk n, rfl⟩
    | none => exact Or.inl rfl

/-- Inversion for the `(\d{n})` at-position matcher. -/
theorem nDigitsAt_eq_some_iff (n : Nat) (cs w : List Char) :
    nDigitsAt n cs = some w ↔
      cs.take n = w ∧ w.length = n ∧ w.all Char.isDigit = true := by
  unfold nDigitsAt
  by_cases h : ((cs.take n).length == n && (cs.take n).all Char.isDigit) = true
  · rw [if_pos h]
    have h' := h
    rw [Bool.and_eq_true] at h'
    obtain ⟨h1, h2⟩ := h'
    constructor
    · intro he
      injection he with he
      subst he
      exact ⟨rfl, Nat.eq_of_beq_eq_true (by simpa using h1), h2⟩
    · rintro ⟨rfl, -, -⟩
      rfl
  · rw [if_neg h]
    constructor
    · intro he
      exact absurd he (by simp)
    · rintro ⟨rfl, hlen, hdig⟩
      exact absurd (by simp [hlen, hdig]) h

/-! ### Claim C5 -/

/-- C5: for every input text, extraction returns either the empty record or a
record carrying all three of application_number, form_type and
billed_entity_name; and in a non-empty record the billed entity defaults to
"Unknown" when its label rule found nothing. -/
theorem C5_record_totality (text : String) :
    (extract_form_info text = [] ∨
      ((dget (extract_form_info text) "application_number").isSome = true ∧
        (dget (extract_form_info text) "form_type").isSome = true ∧
        (dget (extract_form_info text) "billed_entity_name").isSome = true))
    ∧ (extract_form_info text ≠ [] → searchBilledEntity text.data = none →
        dget (extract_form_info text) "billed_entity_name" = some "Unknown") := by
  rcases extract_form_info_cases text with h | ⟨n, h⟩
  · rw [h]
    exact ⟨Or.inl rfl, fun hne _ => absurd rfl hne⟩
  · rw [h]
    refine ⟨Or.inr ⟨?_, ?_, ?_⟩, ?_⟩
    · rw [dget_extractRest_app]; rfl
    · rw [dget_extractRest_type]; rfl
    · rw [dget_extractRest_billed]; rfl
    · intro _ hb
      rw [dget_extractRest_billed, hb]

/-- C5 witness: on text with an application number but no billed-entity label,
the record is non-empty, carries the three fields, and the billed entity is
"Unknown". -/
theorem C5_record_totality_witness :
    ((dget (extract_form_info "Application Number: 251043327") "application_number").isSome = true
      ∧ (dget (extract_form_info "Application Number: 251043327") "form_type").isSome = true
      ∧ (dget (extract_form_info "Application Number: 251043327") "billed_entity_name").isSome = true)
    ∧ dget (extract_form_info "Application Number: 251043327") "billed_entity_name" = some "Unknown" :=
  ⟨Or.resolve_left (C5_record_totality "Application Number: 251043327").1 (by decide),
    (C5_record_totality "Application Number: 251043327").2 (by decide) (by decide)⟩

/-! ### Claim C6 -/

/-- Written from the spec's words for C6 only, to state what a "standalone
9-digit run" would be: nine consecutive digits not adjacent to a further
digit on either side.  The source's fallback rule is `re.search(r'(\d{9})',
text)`, which has no such boundary conditions. -/
def specStandaloneNineDigitRun (cs : List Char) : Bool :=
  (List.range (cs.length + 1)).any (fun i =>
    let w := (cs.drop i).take 9
    w.length == 9 && w.all Char.isDigit &&
      (i == 0 || !((cs.drop (i - 1)).take 1).all Char.isDigit) &&
      !((cs.drop (i + 9)).take 1).any Char.isDigit)

/-- C6 counterexample: "no label here 1234567890" has no standalone 9-digit
run (its only digit run is 10 long) and no "Application Number" label, so per
the claim extraction should abort with the empty record; the code instead
returns application number "123456789", the first nine digits of the longer
run. -/
theorem C6_counterexample :
    specStandaloneNineDigitRun ("no label here 1234567890".data) = false
    ∧ searchAppNumber ("no label here 1234567890".data) = none
    ∧ extract_form_info "no label here 1234567890" ≠ []
    ∧ dget (extract_form_info "no label here 1234567890") "application_number" =
        some "123456789" := by
  refine ⟨by decide, by decide, by decide, by decide⟩

/-- C6 amended: the application number is taken from the primary label rule
when it matches; otherwise from the fallback rule, which returns the
*leftmost nine consecutive digits* in the text (possibly the prefix of a
longer digit run, with no standalone-run boundary check); when neither
matches, extraction returns the empty record. -/
theorem C6_app_number_rules (text : String) :
    (∀ v, searchAppNumber text.data = some v →
      dget (extract_form_info text) "application_number" = some (String.mk v))
    ∧ (searchAppNumber text.data = none →
        ∀ w, searchNineDigits text.data = some w →
          dget (extract_form_info text) "application_number" = some (String.mk w)
          ∧ w.length = 9 ∧ w.all Char.isDigit = true
          ∧ ∃ i, i ≤ text.data.length ∧ (text.data.drop i).take 9 = w
              ∧ ∀ j, j < i → nDigitsAt 9 (text.data.drop j) = none)
    ∧ (searchAppNumber text.data = none → searchNineDigits text.data = none →
        extract_form_info text = []) := by
  refine ⟨?_, ?_, ?_⟩
  · intro v hv
    rw [extract_form_info_eq, hv]
    exact dget_extractRest_app _ _ _
  · intro h0 w hw
    refine ⟨?_, ?_, ?_, ?_⟩
    · rw [extract_form_info_eq, h0, hw]
      exact dget_extractRest_app _ _ _
    · obtain ⟨i, -, hfi, -⟩ :=
        (searchSuffixes_eq_some_iff (nDigitsAt 9) text.data w).mp hw
      exact ((nDigitsAt_eq_some_iff 9 _ w).mp hfi).2.1
    · obtain ⟨i, -, hfi, -⟩ :=
        (searchSuffixes_eq_some_iff (nDigitsAt 9) text.data w).mp hw
      exact ((nDigitsAt_eq_some_iff 9 _ w).mp hfi).2.2
    · obtain ⟨i, hi, hfi, hall⟩ :=
        (searchSuffixes_eq_some_iff (nDigitsAt 9) text.data w).mp hw
      exact ⟨i, hi, ((nDigitsAt_eq_some_iff 9 _ w).mp hfi).1, hall⟩
  · intro h0 h9
    rw [extract_form_info_eq, h0, h9]

/-- C6 witness: the spec's own example text yields application number
"251043327" via the primary rule, and on an unlabelled text the fallback
returns the leftmost nine consecutive digits. -/
theorem C6_app_number_rules_witness :
    dget (extract_form_info "FCC Form 471\nApplication Number: 251043327") "application_number" =
        some (String.mk ("251043327".data))
    ∧ dget (extract_form_info "ids 55555 and 987654321012") "application_number" =
        some (String.mk ("987654321".data)) :=
  ⟨(C6_app_number_rules "FCC Form 471\nApplication Number: 251043327").1
      ("251043327".data) (by decide),
    ((C6_app_number_rules "ids 55555 and 987654321012").2.1 (by decide)
      ("987654321".data) (by decide)).1⟩

/-! ### Claim C7 -/

/-- C7: for every text with a non-empty extraction, the record's form type is
classified in order — "471" when the lowered text contains "form 471" or
"471"; otherwise "470" when it contains "form 470" or "470"; otherwise
"unknown"; in particular text containing both "471" and "470" is classified
"471". -/
theorem C7_form_type_order (text : String) (h : extract_form_info text ≠ []) :
    ((containsSub ("form 471".data) (lowerL text.data) = true ∨
        containsSub ("471".data) (lowerL text.data) = true) →
      dget (extract_form_info text) "form_type" = some "471")
    ∧ (¬(containsSub ("form 471".data) (lowerL text.data) = true ∨
          containsSub ("471".data) (lowerL text.data) = true) →
        (containsSub ("form 470".data) (lowerL text.data) = true ∨
          containsSub ("470".data) (lowerL text.data) = true) →
      dget (extract_form_info text) "form_type" = some "470")
    ∧ (¬(containsSub ("form 471".data) (lowerL text.data) = true ∨
          containsSub ("471".data) (lowerL text.data) = true) →
       ¬(containsSub ("form 470".data) (lowerL text.data) = true ∨
          containsSub ("470".data) (lowerL text.data) = true) →
      dget (extract_form_info text) "form_type" = some "unknown")
    ∧ ((containsSub ("471".data) (lowerL text.data) = true ∧
        containsSub ("470".data) (lowerL text.data) = true) →
      dget (extract_form_info text) "form_type" = some "471") := by
  rcases extract_form_info_cases text with he | ⟨n, he⟩
  · exact absurd he h
  · have htype : dget (extract_form_info text) "form_type" =
        some (classifyFormType text.data) := by
      rw [he]; exact dget_extractRest_type _ _ _
    refine ⟨?_, ?_, ?_, ?_⟩
    · intro hc
      rw [htype]
      unfold classifyFormType
      rw [if_pos (Bool.or_eq_true _ _ |>.mpr hc)]
    · intro hn hc
      rw [htype]
      unfold classifyFormType
      rw [if_neg (fun hor => hn (Bool.or_eq_true _ _ |>.mp hor)),
        if_pos (Bool.or_eq_true _ _ |>.mpr hc)]
    · intro hn1 hn2
      rw [htype]
      unfold classifyFormType
      rw [if_neg (fun hor => hn1 (Bool.or_eq_true _ _ |>.mp hor)),
        if_neg (fun hor => hn2 (Bool.or_eq_true _ _ |>.mp hor))]
    · intro hc
      rw [htype]
      unfold classifyFormType
      rw [if_pos (Bool.or_eq_true _ _ |>.mpr (Or.inr hc.1))]

/-- C7 witness: the spec's example text containing "Form 471" and an
application number is classified 471; a text containing both "471" and "470"
is classified 471. -/
theorem C7_form_type_order_witness :
    dget (extract_form_info "FCC Form 471\nApplication Number: 251043327") "form_type" = some "471"
    ∧ dget (extract_form_info "Form 470: 888777666 and Form 471") "form_type" = some "471" :=
  ⟨(C7_form_type_order "FCC Form 471\nApplication Number: 251043327" (by decide)).1
      (Or.inr (by decide)),
    (C7_form_type_order "Form 470: 888777666 and Form 471" (by decide)).2.2.2
      ⟨by decide, by decide⟩⟩

/-- `containsSub` is preserved by extending the text on the left by a whole
list. -/
theorem containsSub_append_left (l m n : List Char) (h : containsSub n m = true) :
    containsSub n (l ++ m) = true := by
  induction l with
  | nil => simpa using h
  | cons c cs ih => simpa [List.cons_append] using containsSub_cons n c _ ih

/-- A needle occurs in itself followed by anything. -/
theorem containsSub_here (n r : List Char) : containsSub n (n ++ r) = true :=
  containsSub_of_starts _ _ (listStarts_self_append n r)

/-- `String.data` distributes over concatenation. -/
theorem str_data_append (a b : String) : (a ++ b).data = a.data ++ b.data := rfl

/-! ### Claim C2 -/

/-- C2 counterexample: a located document whose text is a Form 470 (form type
"470", not 471) with a successful registry match is *completed* by the direct
runner `process_qa_tasks`, not moved to Issues — the claimed transition with
reason "Not a Form 471 or extraction failed" only exists in
`process_single_task`. -/
theorem C2_counterexample :
    dget (extract_form_info "FCC Form 470\nApplication Number: 251043327") "form_type" =
        some "470"
    ∧ processQaTaskStep "/tmp"
        { gid := "g1", name := "t", notes := "see http://docs.example.com/form.pdf now",
          attachments := [], sectionNames := [] }
        (fun _ => .ok 200)
        (fun _ => "FCC Form 470\nApplication Number: 251043327")
        (fun _ => .ok (200, [[("form_pdf", "http://x/y.pdf")]])) =
      [.moveToProcessing, .markComplete (some "http://x/y.pdf")] := by
  refine ⟨by decide, by decide⟩

/-- C2 amended: the Issues transition with reason "Not a Form 471 or
extraction failed" is issued by the intelligent driver `process_single_task`
exactly when extraction is empty or the form type is not "471"; the direct
runner `process_qa_tasks` instead tests only non-emptiness — an empty
extraction goes to Issues with reason "Failed to extract form information
from PDF", while a non-empty record of any form type proceeds to the registry
search and ends Completed or ManualFollowup. -/
theorem C2_extraction_routing (tempDir : String) (task : AsanaTask)
    (fetch : String → FetchOutcome) (textOf : String → String) (api : String → ApiOutcome)
    (p : String) (hdl : download_pdf_from_task tempDir task fetch = some p) :
    ((extract_form_info (textOf p) = [] ∨
        dget (extract_form_info (textOf p)) "form_type" ≠ some "471") →
      process_single_task tempDir task fetch textOf api =
        ("ISSUES", [.moveToProcessing, .moveToIssues "Not a Form 471 or extraction failed"]))
    ∧ (extract_form_info (textOf p) = [] →
      processQaTaskStep tempDir task fetch textOf api =
        [.moveToProcessing, .moveToIssues "Failed to extract form information from PDF"])
    ∧ (extract_form_info (textOf p) ≠ [] →
        processQaTaskStep tempDir task fetch textOf api =
            [.moveToProcessing,
              .markComplete ((search_form470 (extract_form_info (textOf p)) api).1.form470Url)]
          ∨ processQaTaskStep tempDir task fetch textOf api =
            [.moveToProcessing,
              .moveToManualFollowup "Form 470 not found in USAC database",
              .createSubtask (subtaskName (extract_form_info (textOf p)))
                (subtaskNotes (extract_form_info (textOf p)))]) := by
  refine ⟨?_, ?_, ?_⟩
  · intro h
    simp only [process_single_task, hdl]
    have hnc : ¬(extract_form_info (textOf p) ≠ [] ∧
        dget (extract_form_info (textOf p)) "form_type" = some "471") := by
      rcases h with h1 | h2
      · exact fun hc => hc.1 h1
      · exact fun hc => h2 hc.2
    rw [if_neg hnc]
  · intro h
    simp only [processQaTaskStep, hdl]
    rw [if_neg (fun hc => hc h)]
  · intro h
    simp only [processQaTaskStep, hdl]
    rw [if_pos h]
    by_cases hf : (search_form470 (extract_form_info (textOf p)) api).1.found = true
    · rw [if_pos hf]
      exact Or.inl rfl
    · rw [if_neg hf]
      exact Or.inr rfl

/-- C2 witness: with a located document whose text is a Form 470, the
intelligent driver ends in Issues with the claimed reason, while an empty
extraction makes the direct runner end in Issues with its own reason. -/
theorem C2_extraction_routing_witness :
    process_single_task "/tmp"
        { gid := "g1", name := "t", notes := "see http://docs.example.com/form.pdf now",
          attachments := [], sectionNames := [] }
        (fun _ => .ok 200)
        (fun _ => "FCC Form 470\nApplication Number: 251043327")
        (fun _ => .ok (200, [[("form_pdf", "http://x/y.pdf")]])) =
      ("ISSUES", [.moveToProcessing, .moveToIssues "Not a Form 471 or extraction failed"])
    ∧ processQaTaskStep "/tmp"
        { gid := "g1", name := "t", notes := "see http://docs.example.com/form.pdf now",
          attachments := [], sectionNames := [] }
        (fun _ => .ok 200)
        (fun _ => "no digits at all")
        (fun _ => .ok (200, [])) =
      [.moveToProcessing, .moveToIssues "Failed to extract form information from PDF"] :=
  ⟨(C2_extraction_routing "/tmp"
      { gid := "g1", name := "t", notes := "see http://docs.example.com/form.pdf now",
        attachments := [], sectionNames := [] }
      (fun _ => .ok 200)
      (fun _ => "FCC Form 470\nApplication Number: 251043327")
      (fun _ => .ok (200, [[("form_pdf", "http://x/y.pdf")]]))
      "/tmp/g1_form.pdf" (by decide)).1 (Or.inr (by decide)),
    (C2_extraction_routing "/tmp"
      { gid := "g1", name := "t", notes := "see http://docs.example.com/form.pdf now",
        attachments := [], sectionNames := [] }
      (fun _ => .ok 200)
      (fun _ => "no digits at all")
      (fun _ => .ok (200, []))
      "/tmp/g1_form.pdf" (by decide)).2.1 (by decide)⟩

/-! ### Claim C3 -/

/-- C3 counterexample: on a Form 471 whose registry query fails with
"API error: 500" (an error *is* present in the match result), the pipeline
still uses the fixed reason "Form 470 not found in USAC database" — not the
error — and the child record's notes do not carry the extracted establishing
Form 470 number "123456789012345". -/
theorem C3_counterexample :
    ((search_form470
        (extract_form_info "FCC Form 471\nApplication Number: 251043327\nEstablishing FCC Form 470: 123456789012345")
        (fun _ => .ok (500, []))).1.error = some "API error: 500")
    ∧ dget (extract_form_info "FCC Form 471\nApplication Number: 251043327\nEstablishing FCC Form 470: 123456789012345")
        "establishing_form470_number" = some "123456789012345"
    ∧ processQaTaskStep "/tmp"
        { gid := "g1", name := "t", notes := "see http://docs.example.com/form.pdf now",
          attachments := [], sectionNames := [] }
        (fun _ => .ok 200)
        (fun _ => "FCC Form 471\nApplication Number: 251043327\nEstablishing FCC Form 470: 123456789012345")
        (fun _ => .ok (500, [])) =
      [.moveToProcessing,
        .moveToManualFollowup "Form 470 not found in USAC database",
        .createSubtask
          (subtaskName (extract_form_info "FCC Form 471\nApplication Number: 251043327\nEstablishing FCC Form 470: 123456789012345"))
          (subtaskNotes (extract_form_info "FCC Form 471\nApplication Number: 251043327\nEstablishing FCC Form 470: 123456789012345"))]
    ∧ ("Form 470 not found in USAC database" : String) ≠ "API error: 500"
    ∧ containsSub ("123456789012345".data)
        (subtaskNotes (extract_form_info "FCC Form 471\nApplication Number: 251043327\nEstablishing FCC Form 470: 123456789012345")).data = false := by
  refine ⟨by decide, by decide, by decide, by decide, by decide⟩

/-- C3 amended: when the document is located, extraction is non-empty with
form type "471", and the match result has found=false, both drivers move the
item to ManualFollowup with the fixed reason "Form 470 not found in USAC
database" (the match result's error is never used as the reason) and request
exactly one child record; the child record's notes carry the application
number, the form type and the billed entity name (the establishing Form 470
number is not part of the template). -/
theorem C3_manual_followup_contract (tempDir : String) (task : AsanaTask)
    (fetch : String → FetchOutcome) (textOf : String → String) (api : String → ApiOutcome)
    (p : String) (hdl : download_pdf_from_task tempDir task fetch = some p)
    (hne : extract_form_info (textOf p) ≠ [])
    (h471 : dget (extract_form_info (textOf p)) "form_type" = some "471")
    (hnf : (search_form470 (extract_form_info (textOf p)) api).1.found = false) :
    processQaTaskStep tempDir task fetch textOf api =
      [.moveToProcessing,
        .moveToManualFollowup "Form 470 not found in USAC database",
        .createSubtask (subtaskName (extract_form_info (textOf p)))
          (subtaskNotes (extract_form_info (textOf p)))]
    ∧ process_single_task tempDir task fetch textOf api =
      ("MANUAL_FOLLOWUP",
        [.moveToProcessing,
          .moveToManualFollowup "Form 470 not found in USAC database",
          .createSubtask (subtaskName (extract_form_info (textOf p)))
            (subtaskNotes (extract_form_info (textOf p)))])
    ∧ List.countP (fun e => match e with | Effect.createSubtask _ _ => true | _ => false)
        (processQaTaskStep tempDir task fetch textOf api) = 1
    ∧ (∀ a ft be, dget (extract_form_info (textOf p)) "application_number" = some a →
        dget (extract_form_info (textOf p)) "form_type" = some ft →
        dget (extract_form_info (textOf p)) "billed_entity_name" = some be →
        containsSub a.data (subtaskNotes (extract_form_info (textOf p))).data = true
        ∧ containsSub ft.data (subtaskNotes (extract_form_info (textOf p))).data = true
        ∧ containsSub be.data (subtaskNotes (extract_form_info (textOf p))).data = true
        ∧ containsSub a.data (subtaskName (extract_form_info (textOf p))).data = true) := by
  have hstep : processQaTaskStep tempDir task fetch textOf api =
      [.moveToProcessing,
        .moveToManualFollowup "Form 470 not found in USAC database",
        .createSubtask (subtaskName (extract_form_info (textOf p)))
          (subtaskNotes (extract_form_info (textOf p)))] := by
    simp only [processQaTaskStep, hdl]
    rw [if_pos hne, if_neg (by simp [hnf])]
  have hsingle : process_single_task tempDir task fetch textOf api =
      ("MANUAL_FOLLOWUP",
        [.moveToProcessing,
          .moveToManualFollowup "Form 470 not found in USAC database",
          .createSubtask (subtaskName (extract_form_info (textOf p)))
            (subtaskNotes (extract_form_info (textOf p)))]) := by
    simp only [process_single_task, hdl]
    rw [if_pos ⟨hne, h471⟩, if_neg (by simp [hnf])]
  refine ⟨hstep, hsingle, by rw [hstep]; rfl, ?_⟩
  intro a ft be ha hft hbe
  have hdata : (subtaskNotes (extract_form_info (textOf p))).data =
      ("This sub-task was created automatically because no Form 470 was found for Form 471.\n\nForm 471 Application Number: ".data)
        ++ (a.data ++ (("\nForm Type: ".data)
        ++ (ft.data ++ (("\nBilled Entity: ".data)
        ++ (be.data
        ++ ("\n\nPlease manually search for the corresponding Form 470 and update this sub-task with the results.\n\nExpected actions:\n1. Search USAC database for Form 470\n2. Verify the Form 470 matches the Form 471\n3. Update this sub-task with findings\n4. Mark parent task as complete if Form 470 is found".data)))))) := by
    simp [subtaskNotes, dgetD, ha, hft, hbe, str_data_append, List.append_assoc]
  have hname : (subtaskName (extract_form_info (textOf p))).data =
      ("Manual Review: Find Form 470 for ".data) ++ (a.data ++ []) := by
    simp [subtaskName, dgetD, ha, str_data_append]
  refine ⟨?_, ?_, ?_, ?_⟩
  · rw [hdata]
    exact containsSub_append_left _ _ _ (containsSub_here _ _)
  · rw [hdata]
    refine containsSub_append_left _ _ _ (containsSub_append_left _ _ _ ?_)
    exact containsSub_append_left _ _ _ (containsSub_here _ _)
  · rw [hdata]
    refine containsSub_append_left _ _ _ (containsSub_append_left _ _ _ ?_)
    refine containsSub_append_left _ _ _ (containsSub_append_left _ _ _ ?_)
    exact containsSub_append_left _ _ _ (containsSub_here _ _)
  · rw [hname]
    exact containsSub_append_left _ _ _ (containsSub_here _ _)

/-- C3 witness: a Form 471 with an empty registry answer ends in
ManualFollowup with the fixed reason and one child record whose notes carry
the application number, form type and billed entity. -/
theorem C3_manual_followup_contract_witness :
    processQaTaskStep "/tmp"
        { gid := "g1", name := "t", notes := "see http://docs.example.com/form.pdf now",
          attachments := [], sectionNames := [] }
        (fun _ => .ok 200)
        (fun _ => "FCC Form 471\nApplication Number: 251043327\nBilled Entity Name: Acme School\nEstablishing FCC Form 470: 123456789012345\n")
        (fun _ => .ok (200, [])) =
      [.moveToProcessing,
        .moveToManualFollowup "Form 470 not found in USAC database",
        .createSubtask
          (subtaskName (extract_form_info "FCC Form 471\nApplication Number: 251043327\nBilled Entity Name: Acme School\nEstablishing FCC Form 470: 123456789012345\n"))
          (subtaskNotes (extract_form_info "FCC Form 471\nApplication Number: 251043327\nBilled Entity Name: Acme School\nEstablishing FCC Form 470: 123456789012345\n"))]
    ∧ containsSub ("251043327".data)
        (subtaskNotes (extract_form_info "FCC Form 471\nApplication Number: 251043327\nBilled Entity Name: Acme School\nEstablishing FCC Form 470: 123456789012345\n")).data = true :=
  ⟨(C3_manual_followup_contract "/tmp"
      { gid := "g1", name := "t", notes := "see http://docs.example.com/form.pdf now",
        attachments := [], sectionNames := [] }
      (fun _ => .ok 200)
      (fun _ => "FCC Form 471\nApplication Number: 251043327\nBilled Entity Name: Acme School\nEstablishing FCC Form 470: 123456789012345\n")
      (fun _ => .ok (200, []))
      "/tmp/g1_form.pdf" (by decide) (by decide) (by decide) (by decide)).1,
    ((C3_manual_followup_contract "/tmp"
      { gid := "g1", name := "t", notes := "see http://docs.example.com/form.pdf now",
        attachments := [], sectionNames := [] }
      (fun _ => .ok 200)
      (fun _ => "FCC Form 471\nApplication Number: 251043327\nBilled Entity Name: Acme School\nEstablishing FCC Form 470: 123456789012345\n")
      (fun _ => .ok (200, []))
      "/tmp/g1_form.pdf" (by decide) (by decide) (by decide) (by decide)).2.2.2
      "251043327" "471" "Acme School" (by decide) (by decide) (by decide)).1⟩

/-! ### Claim C8 -/

/-- C8 counterexample: the locator has no distinct failure values — a task
with no document source at all and a task whose only ".pdf" attachment
downloads with status 404 both yield the same sentinel `none`; moreover a
failed fetch of the chosen first attachment is not reported as a failure at
all when a later source (a notes URL) succeeds. -/
theorem C8_counterexample :
    download_pdf_from_task "/tmp"
        { gid := "t1", name := "Test No PDF Available", notes := "",
          attachments := [], sectionNames := [] } (fun _ => .ok 200) = none
    ∧ download_pdf_from_task "/tmp"
        { gid := "t2", name := "x", notes := "",
          attachments := [{ name := "scan.pdf", downloadUrl := some "http://host/scan.pdf" }],
          sectionNames := [] } (fun _ => .ok 404) = none
    ∧ download_pdf_from_task "/tmp"
        { gid := "t3", name := "y", notes := "backup http://host/b.pdf",
          attachments := [{ name := "a.pdf", downloadUrl := some "http://host/a.pdf" }],
          sectionNames := [] }
        (fun u => if u == "http://host/a.pdf" then .ok 500 else .ok 200) =
      some "/tmp/t3_b.pdf" := by
  refine ⟨by decide, by decide, by decide⟩

/-- C8 amended: the locator tries the ".pdf"-named attachments in the item's
existing order (the loop equals the first successful per-attachment attempt)
and falls back to the first ".pdf" URL of the notes; there are no distinct
failure values: it returns the single sentinel `none` exactly when no
attachment attempt succeeds and the notes URL, if any, does not download with
status 200 — the same `none` as when no source exists at all. -/
theorem C8_locator_failures (tempDir : String) (task : AsanaTask)
    (fetch : String → FetchOutcome) :
    downloadLoop tempDir task.gid fetch task.attachments =
      task.attachments.findSome? (tryAttachment tempDir task.gid fetch)
    ∧ (download_pdf_from_task tempDir task fetch = none ↔
        ¬((∃ a ∈ task.attachments, attachmentEligible a = true ∧
            ∃ u, a.downloadUrl = some u ∧ fetch u = .ok 200) ∨
          (task.notes ≠ "" ∧ ∃ url, findFirstPdfUrl task.notes.data = some url ∧
            fetch (String.mk url) = .ok 200))) := by
  refine ⟨downloadLoop_eq_findSome _ _ _ _, ?_⟩
  rw [← Option.not_isSome_iff_eq_none]
  exact not_congr (download_pdf_isSome_iff tempDir task fetch)

/-! ### Claim C10 -/

/-- C10: a failed fetch of a ".pdf" attachment is not terminal for the
locator — it yields a document path exactly when *some* attachment source
succeeds or, all attachments failing, the first ".pdf" URL of the notes
downloads with status 200; in every other case (including when no source
exists at all) it returns the single sentinel `none`. -/
theorem C10_locator_fall_through (tempDir : String) (task : AsanaTask)
    (fetch : String → FetchOutcome) :
    (download_pdf_from_task tempDir task fetch).isSome = true ↔
      (∃ a ∈ task.attachments, attachmentEligible a = true ∧
        ∃ u, a.downloadUrl = some u ∧ fetch u = .ok 200) ∨
      (task.notes ≠ "" ∧ ∃ url, findFirstPdfUrl task.notes.data = some url ∧
        fetch (String.mk url) = .ok 200) :=
  download_pdf_isSome_iff tempDir task fetch

/-! ### Claim C9 -/

/-- C9 counterexample: the backlog enumeration of `get_qa_tasks` matches the
section name by *exact* lowercased equality, not by substring — a task whose
only section is "QA Review" (which contains "qa" as a substring) is not
enumerated. -/
theorem C9_counterexample :
    get_qa_tasks [{ gid := "g9", name := "t", notes := "", attachments := [],
                    sectionNames := ["QA Review"] }] = []
    ∧ containsSub ("qa".data) (lowerL ("QA Review").data) = true
    ∧ sectionIsQa "QA Review" = false := by
  refine ⟨by decide, by decide, by decide⟩

/-- C9 amended: the three workflow-move operations select their target
section by case-insensitive substring match (any name containing both "qa"
and, respectively, "processing" / "manual follow-up" / "issues"), but the
backlog enumeration keeps a task only when some membership section name
lowercases to exactly "qa". -/
theorem C9_category_matching (tasks : List AsanaTask) (t : AsanaTask)
    (sections : List String) :
    (t ∈ get_qa_tasks tasks ↔ t ∈ tasks ∧ ∃ n ∈ t.sectionNames, strLower n = "qa")
    ∧ (∀ s, findProcessingSection sections = some s → s ∈ sections ∧
        containsSub ("qa".data) (lowerL s.data) = true ∧
        containsSub ("processing".data) (lowerL s.data) = true)
    ∧ (∀ s, findManualSection sections = some s → s ∈ sections ∧
        containsSub ("qa".data) (lowerL s.data) = true ∧
        containsSub ("manual follow-up".data) (lowerL s.data) = true)
    ∧ (∀ s, findIssuesSection sections = some s → s ∈ sections ∧
        containsSub ("qa".data) (lowerL s.data) = true ∧
        containsSub ("issues".data) (lowerL s.data) = true) := by
  refine ⟨?_, ?_, ?_, ?_⟩
  · simp [get_qa_tasks, List.mem_filter, List.any_eq_true, sectionIsQa]
  · intro s hs
    have hp := List.find?_some hs
    have hm := List.mem_of_find?_eq_some hs
    unfold processingSectionPred at hp
    rw [Bool.and_eq_true] at hp
    exact ⟨hm, hp.1, hp.2⟩
  · intro s hs
    have hp := List.find?_some hs
    have hm := List.mem_of_find?_eq_some hs
    unfold manualSectionPred at hp
    rw [Bool.and_eq_true] at hp
    exact ⟨hm, hp.1, hp.2⟩
  · intro s hs
    have hp := List.find?_some hs
    have hm := List.mem_of_find?_eq_some hs
    unfold issuesSectionPred at hp
    rw [Bool.and_eq_true] at hp
    exact ⟨hm, hp.1, hp.2⟩

/-- C9 witness: a task in a section named exactly "QA" is enumerated, and the
processing move targets the section "QA – Processing" found by substring
match. -/
theorem C9_category_matching_witness :
    ({ gid := "g1", name := "t", notes := "", attachments := [],
       sectionNames := ["QA"] } : AsanaTask) ∈
      get_qa_tasks [{ gid := "g1", name := "t", notes := "", attachments := [],
                      sectionNames := ["QA"] }]
    ∧ ("QA – Processing" ∈ ["Backlog", "QA – Processing"] ∧
        containsSub ("qa".data) (lowerL ("QA – Processing").data) = true ∧
        containsSub ("processing".data) (lowerL ("QA – Processing").data) = true) :=
  ⟨(C9_category_matching
      [{ gid := "g1", name := "t", notes := "", attachments := [], sectionNames := ["QA"] }]
      { gid := "g1", name := "t", notes := "", attachments := [], sectionNames := ["QA"] }
      []).1.mpr ⟨by decide, "QA", by decide, by decide⟩,
    (C9_category_matching [] { gid := "g1", name := "t", notes := "", attachments := [],
                               sectionNames := ["QA"] } ["Backlog", "QA – Processing"]).2.1
      "QA – Processing" (by decide)⟩
